import Mathlib

/-!
Shallow embedding of the Space Invaders core game loop
(src/main.py together with the constants of src/config.py and the sprite
dimensions produced by src/create_assets.py), and proofs of the frozen
claims about it.

Coordinates and scores are modelled as Int; the Python ints never wrap.
Rendering is modelled only where a claim needs it (draw_bunkers).
-/

namespace SpaceInvaders

/-! ## Configuration constants (src/config.py) -/

def SCREEN_WIDTH : Int := 800
def SCREEN_HEIGHT : Int := 600

def PLAYER_SPEED : Int := 4
def PLAYER_START_X : Int := 370
def PLAYER_START_Y : Int := 520
def PLAYER_INITIAL_LIVES : Int := 3
def PLAYER_MAX_LIVES : Int := 99

def ENEMY_SPEED : Int := 1
def ENEMY_DROP_DISTANCE : Int := 10
def ENEMY_ROWS : Nat := 5
def ENEMY_COLS : Nat := 11
def ENEMY_START_X : Int := 75
def ENEMY_START_Y : Int := 100
def ENEMY_X_GAP : Int := 50
def ENEMY_Y_GAP : Int := 40
def ENEMY_GAME_OVER_Y : Int := 400
def ENEMY_SCORE_SQUID : Int := 30
def ENEMY_SCORE_CRAB : Int := 20
def ENEMY_SCORE_OCTOPUS : Int := 10

def BULLET_SPEED : Int := 10
def BULLET_START_Y : Int := 480

def BUNKER_COUNT : Nat := 4
def BUNKER_Y_POSITION : Int := 450
def BUNKER_HEALTH : Int := 10

def MAX_SCORE : Int := 999999
def MIN_SCORE : Int := 0

/-! ## Sprite dimensions

main.py reads the sizes of the images produced by create_assets.py, which
draws each ascii-art sprite and scales it by 3: player 13x8, crab 11x8,
bunker 20x16, laser 1x4.  main.py takes the common enemy size from the
crab image (enemy_width, enemy_height = enemy_crab_img.get_size()). -/

def player_width : Int := 39
def player_height : Int := 24
def enemy_width : Int := 33
def enemy_height : Int := 24
def bunker_width : Int := 60
def bunker_height : Int := 48
def bullet_width : Int := 3
def bullet_height : Int := 12

/-! ## Data model -/

/-- A pygame.Rect: top-left corner plus width and height. -/
structure Rect where
  x : Int
  y : Int
  w : Int
  h : Int
deriving DecidableEq, Repr, Inhabited

/-- Which sprite an enemy carries (the img field of the enemy dict). -/
inductive EnemyKind where
  | squid
  | crab
  | octopus
deriving DecidableEq, Repr, Inhabited

/-- One enemy dict of main.py: position, signed horizontal step,
tier score, stored bounding rect, sprite kind. -/
structure Enemy where
  kind : EnemyKind
  x : Int
  y : Int
  xChange : Int
  score : Int
  rect : Rect
deriving DecidableEq, Repr, Inhabited

/-- One bunker dict of main.py: fixed rect plus integer health. -/
structure Bunker where
  rect : Rect
  health : Int
deriving DecidableEq, Repr

/-- The bullet_state string of main.py: ready or fire. -/
inductive BulletState where
  | ready
  | fire
deriving DecidableEq, Repr

/-- The mutable module-level game state of main.py, together with the
game_over local of main().  hiScore is render-only and never mutated. -/
structure GameState where
  playerX : Int
  playerY : Int
  playerXChange : Int
  lives : Int
  score : Int
  hiScore : Int
  bulletX : Int
  bulletY : Int
  bulletState : BulletState
  bulletRect : Rect
  enemies : List Enemy
  bunkers : List Bunker
  gameOver : Bool
deriving DecidableEq, Repr

/-! ## Utility and validation (main.py lines 48-60, 215-235) -/

/-- clamp of main.py: max(min_val, min(value, max_val)). -/
def clamp (value minVal maxVal : Int) : Int :=
  max minVal (min value maxVal)

/-- validate_game_state of main.py: clamp score, lives, player position
and bullet position to their declared bounds; runs once per frame. -/
def validate_game_state (s : GameState) : GameState :=
  { s with
    score := clamp s.score MIN_SCORE MAX_SCORE
    lives := clamp s.lives 0 PLAYER_MAX_LIVES
    playerX := clamp s.playerX 0 (SCREEN_WIDTH - player_width)
    playerY := clamp s.playerY 0 (SCREEN_HEIGHT - player_height)
    bulletX := clamp s.bulletX 0 SCREEN_WIDTH
    bulletY := clamp s.bulletY (-bullet_height) SCREEN_HEIGHT }

/-! ## Entity creation (main.py lines 288-328) -/

/-- The enemy built for a given grid cell inside create_enemies. -/
def make_enemy (row col : Nat) : Enemy :=
  let kind : EnemyKind :=
    if row = 0 then .squid else if row = 1 ∨ row = 2 then .crab else .octopus
  let score_val : Int :=
    if row = 0 then ENEMY_SCORE_SQUID
    else if row = 1 ∨ row = 2 then ENEMY_SCORE_CRAB
    else ENEMY_SCORE_OCTOPUS
  let x : Int := ENEMY_START_X + (col : Int) * ENEMY_X_GAP
  let y : Int := ENEMY_START_Y + (row : Int) * ENEMY_Y_GAP
  { kind := kind, x := x, y := y, xChange := ENEMY_SPEED, score := score_val
    rect := ⟨x, y, enemy_width, enemy_height⟩ }

/-- create_enemies of main.py: the fresh row-major formation grid. -/
def create_enemies : List Enemy :=
  ((List.range ENEMY_ROWS).map (fun row =>
    (List.range ENEMY_COLS).map (fun col => make_enemy row col))).flatten

/-- create_bunkers of main.py: BUNKER_COUNT evenly spaced full-health
bunkers. -/
def create_bunkers : List Bunker :=
  let gap : Int := SCREEN_WIDTH / ((BUNKER_COUNT : Int) + 1)
  (List.range BUNKER_COUNT).map (fun i =>
    { rect := ⟨gap * ((i : Int) + 1) - bunker_width / 2, BUNKER_Y_POSITION,
               bunker_width, bunker_height⟩
      health := BUNKER_HEALTH })

/-- reset_game_state of main.py: restore start values and recreate the
enemy grid and the bunkers.  It does not touch bulletX, bulletRect,
hiScore or the game_over flag. -/
def reset_game_state (s : GameState) : GameState :=
  { s with
    playerX := PLAYER_START_X
    playerY := PLAYER_START_Y
    playerXChange := 0
    lives := PLAYER_INITIAL_LIVES
    score := 0
    bulletState := .ready
    bulletY := BULLET_START_Y
    enemies := create_enemies
    bunkers := create_bunkers }

/-! ## Game actions (main.py lines 335-346) -/

/-- fire_bullet of main.py: set the bullet flying, centred on the player. -/
def fire_bullet (x y : Int) (s : GameState) : GameState :=
  let bx : Int := x + player_width / 2 - bullet_width / 2
  { s with
    bulletState := .fire
    bulletX := bx
    bulletY := y
    bulletRect := ⟨bx, y, s.bulletRect.w, s.bulletRect.h⟩ }

/-- is_collision of main.py, i.e. pygame.Rect.colliderect: overlap must be
strict on both axes, edge touching does not collide. -/
def is_collision (r1 r2 : Rect) : Bool :=
  r1.x < r2.x + r2.w && r1.x + r1.w > r2.x &&
  r1.y < r2.y + r2.h && r1.y + r1.h > r2.y

/-- draw_bunkers of main.py, modelled as the list of blit positions: one
position per bunker whose health is positive, in stored order. -/
def draw_bunkers (bs : List Bunker) : List (Int × Int) :=
  bs.filterMap (fun b => if b.health > 0 then some (b.rect.x, b.rect.y) else none)

/-! ## Event handling (main.py lines 431-449) -/

/-- The discrete input intents consumed by one frame of the event loop
(QUIT is process-level and omitted). -/
inductive GameEvent where
  | keyLeft
  | keyRight
  | keySpace
  | keyR
  | keyUpLR
deriving DecidableEq, Repr

/-- One iteration of the event loop of main(). -/
def handle_event (s : GameState) (ev : GameEvent) : GameState :=
  match ev with
  | .keyLeft => { s with playerXChange := -PLAYER_SPEED }
  | .keyRight => { s with playerXChange := PLAYER_SPEED }
  | .keySpace =>
      if s.bulletState = .ready ∧ s.gameOver = false then
        fire_bullet s.playerX s.playerY s
      else s
  | .keyR =>
      if s.gameOver then { (reset_game_state s) with gameOver := false } else s
  | .keyUpLR => { s with playerXChange := 0 }

/-- The whole event loop of one frame, in event order. -/
def handle_events (evs : List GameEvent) (s : GameState) : GameState :=
  evs.foldl handle_event s

/-! ## Simulation phases of one frame (main.py lines 451-507) -/

/-- Player movement with bounds checking (lines 453-454). -/
def move_player (s : GameState) : GameState :=
  { s with playerX := clamp (s.playerX + s.playerXChange) 0 (SCREEN_WIDTH - player_width) }

/-- The first enemy loop: advance by the signed step and resync the rect. -/
def advance_enemy (e : Enemy) : Enemy :=
  { e with x := e.x + e.xChange, rect := ⟨e.x + e.xChange, e.y, e.rect.w, e.rect.h⟩ }

/-- The wall test of the first enemy loop, on the already advanced enemy. -/
def touches_wall (e : Enemy) : Bool :=
  e.x ≤ 0 || e.x ≥ SCREEN_WIDTH - enemy_width

/-- The second enemy loop body: negate the step, drop, resync the rect. -/
def drop_enemy (e : Enemy) : Enemy :=
  { e with xChange := -e.xChange, y := e.y + ENEMY_DROP_DISTANCE,
           rect := ⟨e.x, e.y + ENEMY_DROP_DISTANCE, e.rect.w, e.rect.h⟩ }

/-- Enemy movement of one frame (lines 456-470): advance every enemy,
scan the whole set for wall contact, and only then reverse and drop all
of them; the second component reports a floor breach after the drop. -/
def move_enemies (es : List Enemy) : List Enemy × Bool :=
  let advanced := es.map advance_enemy
  if advanced.any touches_wall then
    let dropped := advanced.map drop_enemy
    (dropped, dropped.any (fun e => e.y > ENEMY_GAME_OVER_Y))
  else
    (advanced, false)

/-! ## Bullet block (main.py lines 473-495) -/

/-- The bullet rect after this frame advance of the flying bullet
(bullet_y -= BULLET_SPEED; bullet_rect.topleft = (bullet_x, bullet_y)). -/
def bullet_adv_rect (s : GameState) : Rect :=
  ⟨s.bulletX, s.bulletY - BULLET_SPEED, s.bulletRect.w, s.bulletRect.h⟩

/-- The bullet-vs-enemy scan (lines 481-487): walk the list in stored
order, drop the first enemy whose rect collides with the bullet rect and
stop; return the remaining list and the score of the removed enemy. -/
def resolve_enemies (br : Rect) : List Enemy → List Enemy × Option Int
  | [] => ([], none)
  | e :: rest =>
      if is_collision e.rect br then (rest, some e.score)
      else
        let r := resolve_enemies br rest
        (e :: r.1, r.2)

/-- The bullet-vs-bunker scan (lines 490-495): walk the list in stored
order, decrement the first live bunker whose rect collides with the
bullet rect and stop; the flag reports whether a bunker was hit. -/
def resolve_bunkers (br : Rect) : List Bunker → List Bunker × Bool
  | [] => ([], false)
  | b :: rest =>
      if b.health > 0 ∧ is_collision b.rect br then
        ({ b with health := b.health - 1 } :: rest, true)
      else
        let r := resolve_bunkers br rest
        (b :: r.1, r.2)

/-- The whole bullet block of one frame (lines 473-495).  Both scans run
whenever the bullet was flying at the start of the block; neither the top
exit nor an enemy hit guards the bunker scan, and the bullet rect is not
resynced after a hit. -/
def bullet_step (s : GameState) : GameState :=
  if s.bulletState = .fire then
    let br := bullet_adv_rect s
    let st1 : BulletState := if s.bulletY - BULLET_SPEED ≤ 0 then .ready else .fire
    let er := resolve_enemies br s.enemies
    let st2 : BulletState := match er.2 with | some _ => .ready | none => st1
    let by2 : Int := match er.2 with | some _ => BULLET_START_Y | none => s.bulletY - BULLET_SPEED
    let sc2 : Int := match er.2 with | some v => s.score + v | none => s.score
    let kr := resolve_bunkers br s.bunkers
    let st3 : BulletState := if kr.2 then .ready else st2
    let by3 : Int := if kr.2 then BULLET_START_Y else by2
    { s with
      bulletY := by3
      bulletRect := br
      bulletState := st3
      enemies := er.1
      score := sc2
      bunkers := kr.1 }
  else s

/-- The wave respawn check (lines 506-507): an empty enemy collection is
refilled with a fresh grid, nothing else changes. -/
def respawn_step (s : GameState) : GameState :=
  if s.enemies.length = 0 then { s with enemies := create_enemies } else s

/-- The whole simulation part of one frame, run only when the game_over
flag is down after event handling (lines 451-507): player movement, enemy
movement with atomic reversal and floor-breach detection, the bullet
block, then the wave respawn check. -/
def sim_step (s : GameState) : GameState :=
  let s1 := move_player s
  let m := move_enemies s1.enemies
  let s2 := { s1 with enemies := m.1, gameOver := s1.gameOver || m.2 }
  let s3 := bullet_step s2
  respawn_step s3

/-- One full frame of the main loop: the defensive validation pass, the
event loop, then the simulation when the game_over flag is down. -/
def tick (evs : List GameEvent) (s : GameState) : GameState :=
  let s1 := validate_game_state s
  let s2 := handle_events evs s1
  if s2.gameOver then s2 else sim_step s2

/-! ## Characterisation of the bullet-vs-enemy scan -/

theorem resolve_enemies_cons (br : Rect) (e : Enemy) (rest : List Enemy) :
    resolve_enemies br (e :: rest) =
      if is_collision e.rect br then (rest, some e.score)
      else (e :: (resolve_enemies br rest).1, (resolve_enemies br rest).2) := rfl

/-- The scan reports no hit exactly when no enemy rect collides with the
bullet rect. -/
theorem resolve_enemies_none_iff (br : Rect) (es : List Enemy) :
    (resolve_enemies br es).2 = none ↔
      ∀ e ∈ es, is_collision e.rect br = false := by
  induction es with
  | nil => simp [resolve_enemies]
  | cons e rest ih =>
    rw [resolve_enemies_cons]
    by_cases hc : is_collision e.rect br = true
    · simp [hc]
    · simp only [Bool.not_eq_true] at hc
      simp [hc, ih]

/-- When the scan reports no hit, the enemy collection is unchanged. -/
theorem resolve_enemies_none_fst (br : Rect) (es : List Enemy)
    (h : (resolve_enemies br es).2 = none) :
    (resolve_enemies br es).1 = es := by
  induction es with
  | nil => simp [resolve_enemies]
  | cons e rest ih =>
    rw [resolve_enemies_cons] at h ⊢
    by_cases hc : is_collision e.rect br = true
    · simp [hc] at h
    · simp only [Bool.not_eq_true] at hc
      simp [hc] at h ⊢
      exact ih h

/-- When the scan reports a hit, the removed enemy is the first colliding
one in stored order, exactly it is removed, and the reported score is its
tier score. -/
theorem resolve_enemies_some_spec (br : Rect) (es : List Enemy) (v : Int)
    (h : (resolve_enemies br es).2 = some v) :
    ∃ pre e post, es = pre ++ e :: post ∧
      (∀ x ∈ pre, is_collision x.rect br = false) ∧
      is_collision e.rect br = true ∧ v = e.score ∧
      (resolve_enemies br es).1 = pre ++ post := by
  induction es with
  | nil => simp [resolve_enemies] at h
  | cons e rest ih =>
    rw [resolve_enemies_cons] at h ⊢
    by_cases hc : is_collision e.rect br = true
    · simp [hc] at h ⊢
      exact ⟨[], e, rest, by simp, by simp, hc, h.symm, by simp⟩
    · simp only [Bool.not_eq_true] at hc
      simp [hc] at h ⊢
      obtain ⟨pre, x, post, hsplit, hpre, hx, hv, hfst⟩ := ih h
      refine ⟨e :: pre, x, post, by simp [hsplit], ?_, hx, hv, by simp [hfst]⟩
      intro z hz
      rcases List.mem_cons.1 hz with hz | hz
      · exact hz ▸ hc
      · exact hpre z hz

/-! ## Characterisation of the bullet-vs-bunker scan -/

theorem resolve_bunkers_cons (br : Rect) (b : Bunker) (rest : List Bunker) :
    resolve_bunkers br (b :: rest) =
      if b.health > 0 ∧ is_collision b.rect br then
        ({ b with health := b.health - 1 } :: rest, true)
      else (b :: (resolve_bunkers br rest).1, (resolve_bunkers br rest).2) := rfl

/-- A bunker not satisfying the scan guard is dead or missed by the rect. -/
theorem bunker_guard_neg {br : Rect} {b : Bunker}
    (hc : ¬(b.health > 0 ∧ is_collision b.rect br)) :
    b.health ≤ 0 ∨ is_collision b.rect br = false := by
  by_cases h1 : 0 < b.health
  · right
    have := fun h2 => hc ⟨h1, h2⟩
    simpa using this
  · exact Or.inl (not_lt.1 h1)

/-- The scan reports no hit exactly when no live bunker rect collides with
the bullet rect. -/
theorem resolve_bunkers_false_iff (br : Rect) (bs : List Bunker) :
    (resolve_bunkers br bs).2 = false ↔
      ∀ b ∈ bs, b.health ≤ 0 ∨ is_collision b.rect br = false := by
  induction bs with
  | nil => simp [resolve_bunkers]
  | cons b rest ih =>
    rw [resolve_bunkers_cons]
    by_cases hc : b.health > 0 ∧ is_collision b.rect br
    · rw [if_pos hc]
      constructor
      · intro h
        exact absurd h (by simp)
      · intro h
        rcases (List.forall_mem_cons.1 h).1 with hb | hb
        · exact absurd hb (not_le.2 hc.1)
        · rw [hc.2] at hb
          exact absurd hb (by simp)
    · rw [if_neg hc]
      simp only [List.forall_mem_cons]
      have hb := bunker_guard_neg hc
      simp [ih, hb]

/-- When the scan reports no hit, the bunker collection is unchanged. -/
theorem resolve_bunkers_false_fst (br : Rect) (bs : List Bunker)
    (h : (resolve_bunkers br bs).2 = false) :
    (resolve_bunkers br bs).1 = bs := by
  induction bs with
  | nil => simp [resolve_bunkers]
  | cons b rest ih =>
    rw [resolve_bunkers_cons] at h ⊢
    by_cases hc : b.health > 0 ∧ is_collision b.rect br
    · rw [if_pos hc] at h
      exact absurd h (by simp)
    · rw [if_neg hc] at h ⊢
      simp at h ⊢
      exact ih h

/-- When the scan reports a hit, exactly the first live colliding bunker
in stored order loses one health point and everything else is unchanged. -/
theorem resolve_bunkers_true_spec (br : Rect) (bs : List Bunker)
    (h : (resolve_bunkers br bs).2 = true) :
    ∃ pre b post, bs = pre ++ b :: post ∧
      (∀ x ∈ pre, x.health ≤ 0 ∨ is_collision x.rect br = false) ∧
      0 < b.health ∧ is_collision b.rect br = true ∧
      (resolve_bunkers br bs).1 = pre ++ { b with health := b.health - 1 } :: post := by
  induction bs with
  | nil => simp [resolve_bunkers] at h
  | cons b rest ih =>
    rw [resolve_bunkers_cons] at h ⊢
    by_cases hc : b.health > 0 ∧ is_collision b.rect br
    · rw [if_pos hc] at h ⊢
      exact ⟨[], b, rest, by simp, by simp, hc.1, hc.2, by simp⟩
    · rw [if_neg hc] at h ⊢
      simp at h ⊢
      obtain ⟨pre, x, post, hsplit, hpre, hx1, hx2, hfst⟩ := ih h
      refine ⟨b :: pre, x, post, by simp [hsplit], ?_, hx1, hx2, by simp [hfst]⟩
      intro z hz
      rcases List.mem_cons.1 hz with hz | hz
      · exact hz ▸ bunker_guard_neg hc
      · exact hpre z hz

/-- The scan leaves the bunker collection unchanged exactly when no live
bunker rect collides with the bullet rect. -/
theorem resolve_bunkers_eq_iff (br : Rect) (bs : List Bunker) :
    (resolve_bunkers br bs).1 = bs ↔
      ∀ b ∈ bs, b.health ≤ 0 ∨ is_collision b.rect br = false := by
  constructor
  · intro h
    rw [← resolve_bunkers_false_iff]
    by_contra hs
    have ht : (resolve_bunkers br bs).2 = true := by
      revert hs
      cases (resolve_bunkers br bs).2 <;> simp
    obtain ⟨pre, b, post, hsplit, _, hb1, _, hfst⟩ :=
      resolve_bunkers_true_spec br bs ht
    have heq : (pre ++ { b with health := b.health - 1 } :: post : List Bunker) =
        pre ++ b :: post := by
      rw [← hfst, h, hsplit]
    have htl := List.append_cancel_left heq
    have hhd : ({ b with health := b.health - 1 } : Bunker) = b :=
      (List.cons.injEq _ _ _ _ ▸ htl).1
    have hhp : b.health - 1 = b.health := congrArg Bunker.health hhd
    omega
  · intro h
    exact resolve_bunkers_false_fst br bs ((resolve_bunkers_false_iff br bs).2 h)

/-- What one round-internal step may do to a single bunker slot: the rect
is fixed, health never increases, health never goes negative, and a dead
bunker is untouched. -/
def bunker_frame (ob nb : Bunker) : Prop :=
  nb.rect = ob.rect ∧ nb.health ≤ ob.health ∧
  (0 ≤ ob.health → 0 ≤ nb.health) ∧ (ob.health ≤ 0 → nb = ob)

theorem bunker_frame_refl (bs : List Bunker) :
    List.Forall₂ bunker_frame bs bs :=
  List.forall₂_same.2 fun _ _ => ⟨rfl, le_refl _, fun h => h, fun _ => rfl⟩

/-- Slot-by-slot effect of one bunker scan: rects are fixed, health never
increases, health never goes negative, and a dead bunker is untouched. -/
theorem resolve_bunkers_forall2 (br : Rect) (bs : List Bunker) :
    List.Forall₂ bunker_frame bs (resolve_bunkers br bs).1 := by
  induction bs with
  | nil => simp [resolve_bunkers]
  | cons b rest ih =>
    rw [resolve_bunkers_cons]
    by_cases hc : b.health > 0 ∧ is_collision b.rect br
    · rw [if_pos hc]
      refine List.Forall₂.cons ⟨rfl, ?_, fun _ => ?_,
        fun hb => absurd hb (not_le.2 hc.1)⟩ ?_
      · show b.health - 1 ≤ b.health
        omega
      · show (0 : Int) ≤ b.health - 1
        have := hc.1
        omega
      · exact List.forall₂_same.2 fun x _ => ⟨rfl, le_refl _, fun h => h, fun _ => rfl⟩
    · rw [if_neg hc]
      exact List.Forall₂.cons ⟨rfl, le_refl _, fun h => h, fun _ => rfl⟩ ih

/-! ## Frame lemmas: which fields each phase leaves alone -/

theorem validate_preserves (s : GameState) :
    (validate_game_state s).enemies = s.enemies ∧
    (validate_game_state s).bunkers = s.bunkers ∧
    (validate_game_state s).gameOver = s.gameOver ∧
    (validate_game_state s).bulletState = s.bulletState :=
  ⟨rfl, rfl, rfl, rfl⟩

theorem move_player_preserves (s : GameState) :
    (move_player s).enemies = s.enemies ∧
    (move_player s).bunkers = s.bunkers ∧
    (move_player s).gameOver = s.gameOver ∧
    (move_player s).score = s.score :=
  ⟨rfl, rfl, rfl, rfl⟩

theorem bullet_step_gameOver (s : GameState) :
    (bullet_step s).gameOver = s.gameOver := by
  by_cases h : s.bulletState = .fire <;> simp [bullet_step, h]

theorem bullet_step_lives (s : GameState) :
    (bullet_step s).lives = s.lives := by
  by_cases h : s.bulletState = .fire <;> simp [bullet_step, h]

theorem respawn_step_preserves (s : GameState) :
    (respawn_step s).gameOver = s.gameOver ∧
    (respawn_step s).bunkers = s.bunkers ∧
    (respawn_step s).score = s.score ∧
    (respawn_step s).lives = s.lives := by
  by_cases h : s.enemies.length = 0 <;> simp [respawn_step, h]

theorem handle_event_gameOver_noR (s : GameState) (ev : GameEvent)
    (h : ev ≠ GameEvent.keyR) :
    (handle_event s ev).gameOver = s.gameOver := by
  cases ev with
  | keySpace =>
      by_cases hf : s.bulletState = .ready ∧ s.gameOver = false <;>
        simp [handle_event, fire_bullet, hf]
  | keyR => exact absurd rfl h
  | _ => rfl

theorem handle_events_gameOver_noR (evs : List GameEvent) (s : GameState)
    (h : ∀ ev ∈ evs, ev ≠ GameEvent.keyR) :
    (handle_events evs s).gameOver = s.gameOver := by
  induction evs generalizing s with
  | nil => rfl
  | cons ev rest ih =>
      have : (handle_events (ev :: rest) s) = handle_events rest (handle_event s ev) := rfl
      rw [this, ih _ (fun e he => h e (List.mem_cons_of_mem _ he)),
        handle_event_gameOver_noR s ev (h ev (List.mem_cons_self _ _))]

theorem handle_event_bunkers_noR (s : GameState) (ev : GameEvent)
    (h : ev ≠ GameEvent.keyR) :
    (handle_event s ev).bunkers = s.bunkers := by
  cases ev with
  | keySpace =>
      by_cases hf : s.bulletState = .ready ∧ s.gameOver = false <;>
        simp [handle_event, fire_bullet, hf]
  | keyR => exact absurd rfl h
  | _ => rfl

theorem handle_events_bunkers_noR (evs : List GameEvent) (s : GameState)
    (h : ∀ ev ∈ evs, ev ≠ GameEvent.keyR) :
    (handle_events evs s).bunkers = s.bunkers := by
  induction evs generalizing s with
  | nil => rfl
  | cons ev rest ih =>
      have : (handle_events (ev :: rest) s) = handle_events rest (handle_event s ev) := rfl
      rw [this, ih _ (fun e he => h e (List.mem_cons_of_mem _ he)),
        handle_event_bunkers_noR s ev (h ev (List.mem_cons_self _ _))]

/-- Wall contact after advancing, phrased on the original enemies. -/
theorem advanced_any_wall_iff (es : List Enemy) :
    (es.map advance_enemy).any touches_wall = true ↔
      ∃ e ∈ es, e.x + e.xChange ≤ 0 ∨
        e.x + e.xChange ≥ SCREEN_WIDTH - enemy_width := by
  simp [List.any_map, List.any_eq_true, touches_wall, advance_enemy, Function.comp]

/-- When some advanced enemy touches a wall and some enemy would breach
the floor by the drop, the movement phase reports the breach. -/
theorem move_enemies_snd_true (es : List Enemy)
    (ht : ∃ e ∈ es, e.x + e.xChange ≤ 0 ∨
        e.x + e.xChange ≥ SCREEN_WIDTH - enemy_width)
    (hb : ∃ e ∈ es, e.y + ENEMY_DROP_DISTANCE > ENEMY_GAME_OVER_Y) :
    (move_enemies es).2 = true := by
  have hany := (advanced_any_wall_iff es).2 ht
  simp only [move_enemies, hany, if_true]
  simp [List.any_map, List.any_eq_true, drop_enemy, advance_enemy, Function.comp]
  obtain ⟨e, hem, hey⟩ := hb
  exact ⟨e, hem, hey⟩

/-- What the whole simulation step does to the game_over flag. -/
theorem sim_step_gameOver (t : GameState) :
    (sim_step t).gameOver = (t.gameOver || (move_enemies t.enemies).2) := by
  simp only [sim_step]
  rw [(respawn_step_preserves _).1, bullet_step_gameOver]
  rfl

/-! ## The claims -/

/-- C1: in a Playing tick whose bullet is flying, the bullet-vs-enemy
resolution either removes nothing (no enemy rect overlaps the bullet rect)
or removes exactly the first overlapping enemy in stored order, and after
a destructive collision the bullet state is ready; hence at most one enemy
is destroyed per bullet flight. -/
theorem C1_bullet_removes_first_hit_only (s : GameState)
    (h : s.bulletState = .fire) :
    ((bullet_step s).enemies = s.enemies ∧
      ∀ e ∈ s.enemies, is_collision e.rect (bullet_adv_rect s) = false) ∨
    (∃ pre e post, s.enemies = pre ++ e :: post ∧
      (∀ x ∈ pre, is_collision x.rect (bullet_adv_rect s) = false) ∧
      is_collision e.rect (bullet_adv_rect s) = true ∧
      (bullet_step s).enemies = pre ++ post ∧
      (bullet_step s).bulletState = .ready) := by
  cases hr : (resolve_enemies (bullet_adv_rect s) s.enemies).2 with
  | none =>
      left
      constructor
      · have he : (bullet_step s).enemies =
            (resolve_enemies (bullet_adv_rect s) s.enemies).1 := by
          simp [bullet_step, h]
        rw [he, resolve_enemies_none_fst _ _ hr]
      · exact (resolve_enemies_none_iff _ _).1 hr
  | some v =>
      right
      obtain ⟨pre, e, post, hsplit, hpre, he, _, hfst⟩ :=
        resolve_enemies_some_spec _ _ _ hr
      refine ⟨pre, e, post, hsplit, hpre, he, ?_, ?_⟩
      · have hlist : (bullet_step s).enemies =
            (resolve_enemies (bullet_adv_rect s) s.enemies).1 := by
          simp [bullet_step, h]
        rw [hlist, hfst]
      · simp [bullet_step, h, hr]

/-- A concrete flying-bullet state whose bullet rect overlaps its only
enemy. -/
def W1 : GameState :=
  { playerX := 370, playerY := 520, playerXChange := 0, lives := 3, score := 0,
    hiScore := 0, bulletX := 100, bulletY := 130, bulletState := .fire,
    bulletRect := ⟨100, 140, 3, 12⟩,
    enemies := [{ kind := .octopus, x := 90, y := 110, xChange := 1, score := 10,
                  rect := ⟨90, 110, 33, 24⟩ }],
    bunkers := [], gameOver := false }

/-- Witness for C1 at the concrete state W1. -/
theorem C1_witness :
    ((bullet_step W1).enemies = W1.enemies ∧
      ∀ e ∈ W1.enemies, is_collision e.rect (bullet_adv_rect W1) = false) ∨
    (∃ pre e post, W1.enemies = pre ++ e :: post ∧
      (∀ x ∈ pre, is_collision x.rect (bullet_adv_rect W1) = false) ∧
      is_collision e.rect (bullet_adv_rect W1) = true ∧
      (bullet_step W1).enemies = pre ++ post ∧
      (bullet_step W1).bulletState = .ready) :=
  C1_bullet_removes_first_hit_only W1 rfl

/-- C7: an empty enemy collection is replaced by the fresh full grid of
create_enemies with score, lives, phase and bunkers untouched, the
simulation step never ends with an empty collection, and the grid is the
full rows-times-cols wave. -/
theorem C7_wave_respawn :
    (∀ s : GameState, s.enemies = [] →
        (respawn_step s).enemies = create_enemies ∧
        (respawn_step s).score = s.score ∧
        (respawn_step s).lives = s.lives ∧
        (respawn_step s).gameOver = s.gameOver ∧
        (respawn_step s).bunkers = s.bunkers) ∧
    (∀ s : GameState, (sim_step s).enemies ≠ []) ∧
    create_enemies.length = ENEMY_ROWS * ENEMY_COLS := by
  refine ⟨?_, ?_, by decide⟩
  · intro s h
    simp [respawn_step, h]
  · intro s
    have key : ∀ t : GameState, (respawn_step t).enemies ≠ [] := by
      intro t
      have hne : create_enemies ≠ [] := by decide
      by_cases ht : t.enemies.length = 0
      · simpa [respawn_step, ht] using hne
      · simp only [respawn_step]
        rw [if_neg ht]
        exact fun hcon => ht (by simp [hcon])
    simp only [sim_step]
    exact key _

/-- C8: a reset intent is a no-op while Playing; from GameOver it restores
the start position and velocity intent, initial lives, zero score, a ready
bullet, the fresh enemy grid and fresh bunkers, and moves the phase back
to Playing. -/
theorem C8_reset_intent :
    (∀ s : GameState, s.gameOver = false → handle_event s .keyR = s) ∧
    (∀ s : GameState, s.gameOver = true →
        (handle_event s .keyR).playerX = PLAYER_START_X ∧
        (handle_event s .keyR).playerY = PLAYER_START_Y ∧
        (handle_event s .keyR).playerXChange = 0 ∧
        (handle_event s .keyR).lives = PLAYER_INITIAL_LIVES ∧
        (handle_event s .keyR).score = 0 ∧
        (handle_event s .keyR).bulletState = .ready ∧
        (handle_event s .keyR).bulletY = BULLET_START_Y ∧
        (handle_event s .keyR).enemies = create_enemies ∧
        (handle_event s .keyR).bunkers = create_bunkers ∧
        (handle_event s .keyR).gameOver = false) := by
  constructor
  · intro s h
    simp [handle_event, h]
  · intro s h
    simp [handle_event, h, reset_game_state]

/-- C10: the generated grid is the full rows-times-cols formation in
row-major order; the cell of row r and column c sits at start plus index
times gap on each axis, moves with step +ENEMY_SPEED, and scores 30 on
row 0, 20 on rows 1 and 2, 10 on rows 3 and 4, with the matching sprite
tier. -/
theorem C10_grid_generation :
    create_enemies.length = ENEMY_ROWS * ENEMY_COLS ∧
    ∀ row < ENEMY_ROWS, ∀ col < ENEMY_COLS,
      (create_enemies.getD (row * ENEMY_COLS + col) default).x =
          ENEMY_START_X + (col : Int) * ENEMY_X_GAP ∧
      (create_enemies.getD (row * ENEMY_COLS + col) default).y =
          ENEMY_START_Y + (row : Int) * ENEMY_Y_GAP ∧
      (create_enemies.getD (row * ENEMY_COLS + col) default).xChange =
          ENEMY_SPEED ∧
      (create_enemies.getD (row * ENEMY_COLS + col) default).score =
          (if row = 0 then ENEMY_SCORE_SQUID
           else if row ≤ 2 then ENEMY_SCORE_CRAB
           else ENEMY_SCORE_OCTOPUS) ∧
      (create_enemies.getD (row * ENEMY_COLS + col) default).kind =
          (if row = 0 then .squid else if row ≤ 2 then .crab else .octopus) := by
  decide

/-- C2: formation reversal is atomic within one tick: when any single
enemy touches a wall after advancing, every enemy has its step negated
and its y raised by the drop distance; otherwise every enemy keeps its
step and its y; detection covers the whole advanced set before any
reversal is applied. -/
theorem C2_atomic_reversal (es : List Enemy) :
    ((∃ e ∈ es, e.x + e.xChange ≤ 0 ∨
        e.x + e.xChange ≥ SCREEN_WIDTH - enemy_width) →
      List.Forall₂ (fun old new => new.x = old.x + old.xChange ∧
        new.xChange = -old.xChange ∧ new.y = old.y + ENEMY_DROP_DISTANCE)
        es (move_enemies es).1) ∧
    ((∀ e ∈ es, ¬(e.x + e.xChange ≤ 0 ∨
        e.x + e.xChange ≥ SCREEN_WIDTH - enemy_width)) →
      List.Forall₂ (fun old new => new.x = old.x + old.xChange ∧
        new.xChange = old.xChange ∧ new.y = old.y)
        es (move_enemies es).1) := by
  constructor
  · intro hex
    have hany := (advanced_any_wall_iff es).2 hex
    simp only [move_enemies, hany, if_true, List.map_map]
    exact List.forall₂_map_right_iff.2
      (List.forall₂_same.2 fun e _ => ⟨rfl, rfl, rfl⟩)
  · intro hall
    have hany : (es.map advance_enemy).any touches_wall = false := by
      rw [← Bool.not_eq_true, advanced_any_wall_iff]
      rintro ⟨e, he, hc⟩
      exact hall e he hc
    simp only [move_enemies, hany, if_false, Bool.false_eq_true, ite_false]
    exact List.forall₂_map_right_iff.2
      (List.forall₂_same.2 fun e _ => ⟨rfl, rfl, rfl⟩)

/-- C3: a floor breach during the reversal drop raises game_over by the
end of the tick, and a tick of a GameOver state with no reset intent
among its events leaves game_over raised. -/
theorem C3_floor_breach_game_over :
    (∀ (evs : List GameEvent) (s : GameState),
        (handle_events evs (validate_game_state s)).gameOver = false →
        (∃ e ∈ (handle_events evs (validate_game_state s)).enemies,
            e.x + e.xChange ≤ 0 ∨
            e.x + e.xChange ≥ SCREEN_WIDTH - enemy_width) →
        (∃ e ∈ (handle_events evs (validate_game_state s)).enemies,
            e.y + ENEMY_DROP_DISTANCE > ENEMY_GAME_OVER_Y) →
        (tick evs s).gameOver = true) ∧
    (∀ (evs : List GameEvent) (s : GameState), s.gameOver = true →
        (∀ ev ∈ evs, ev ≠ GameEvent.keyR) →
        (tick evs s).gameOver = true) := by
  constructor
  · intro evs s h1 htrig hbr
    simp only [tick, h1, Bool.false_eq_true, ite_false]
    rw [sim_step_gameOver, h1, move_enemies_snd_true _ htrig hbr]
    rfl
  · intro evs s hgo hnoR
    have h2 : (handle_events evs (validate_game_state s)).gameOver = true := by
      rw [handle_events_gameOver_noR _ _ hnoR]
      exact hgo
    simp [tick, h2]

/-- C6: a flying bullet that reaches the top of the screen in a tick in
which its rect overlaps no enemy and no live bunker ends the bullet block
ready, with the score, the enemy collection and the bunkers unchanged. -/
theorem C6_top_exit_resets_bullet (s : GameState)
    (hf : s.bulletState = .fire)
    (hy : s.bulletY - BULLET_SPEED ≤ 0)
    (he : ∀ e ∈ s.enemies, is_collision e.rect (bullet_adv_rect s) = false)
    (hb : ∀ b ∈ s.bunkers,
        b.health ≤ 0 ∨ is_collision b.rect (bullet_adv_rect s) = false) :
    (bullet_step s).bulletState = .ready ∧
    (bullet_step s).score = s.score ∧
    (bullet_step s).enemies = s.enemies ∧
    (bullet_step s).bunkers = s.bunkers := by
  have hrn : (resolve_enemies (bullet_adv_rect s) s.enemies).2 = none :=
    (resolve_enemies_none_iff _ _).2 he
  have hbf : (resolve_bunkers (bullet_adv_rect s) s.bunkers).2 = false :=
    (resolve_bunkers_false_iff _ _).2 hb
  refine ⟨?_, ?_, ?_, ?_⟩ <;>
    simp [bullet_step, hf, hrn, hbf, hy,
      resolve_enemies_none_fst _ _ hrn, resolve_bunkers_false_fst _ _ hbf]

/-- A concrete state whose flying bullet exits the top this tick while
nothing is in its way. -/
def W6 : GameState :=
  { playerX := 370, playerY := 520, playerXChange := 0, lives := 3, score := 123,
    hiScore := 0, bulletX := 400, bulletY := 5, bulletState := .fire,
    bulletRect := ⟨400, 15, 3, 12⟩, enemies := [], bunkers := [],
    gameOver := false }

/-- Witness for C6 at the concrete state W6. -/
theorem C6_witness :
    (bullet_step W6).bulletState = .ready ∧
    (bullet_step W6).score = W6.score ∧
    (bullet_step W6).enemies = W6.enemies ∧
    (bullet_step W6).bunkers = W6.bunkers :=
  C6_top_exit_resets_bullet W6 rfl (by decide) (by simp [W6]) (by simp [W6])

/-- A concrete flying-bullet state whose bullet rect overlaps both its
only enemy and a live bunker at once: the enemy sits low (as after a drop
past the floor threshold within the same tick) just above the bunker row,
and the 12-pixel-tall bullet straddles both rects. -/
def CEX4 : GameState :=
  { playerX := 370, playerY := 520, playerXChange := 0, lives := 3, score := 0,
    hiScore := 0, bulletX := 140, bulletY := 455, bulletState := .fire,
    bulletRect := ⟨140, 465, 3, 12⟩,
    enemies := [{ kind := .octopus, x := 130, y := 430, xChange := 1, score := 10,
                  rect := ⟨130, 430, 33, 24⟩ }],
    bunkers := [{ rect := ⟨130, 450, 60, 48⟩, health := 10 }],
    gameOver := false }

/-- C4 counterexample: in this tick the enemy scan removes the enemy and
resets the bullet to ready, yet the bunker scan still runs on the same
bullet rect and the bunker loses one health point. -/
theorem C4_counterexample :
    (bullet_step CEX4).enemies = [] ∧
    (bullet_step CEX4).bulletState = .ready ∧
    (bullet_step CEX4).bunkers = [{ rect := ⟨130, 450, 60, 48⟩, health := 9 }] ∧
    (bullet_step CEX4).bunkers ≠ CEX4.bunkers := by
  decide

/-- C4 amended: in a tick whose enemy scan removed an enemy, the bunker
scan is still evaluated against the unchanged bullet rect, so the bunker
collection stays unchanged exactly when no live bunker rect overlaps the
bullet rect. -/
theorem C4_bunker_scan_still_runs (s : GameState) (v : Int)
    (hf : s.bulletState = .fire)
    (_hhit : (resolve_enemies (bullet_adv_rect s) s.enemies).2 = some v) :
    ((bullet_step s).bunkers = s.bunkers ↔
      ∀ b ∈ s.bunkers,
        b.health ≤ 0 ∨ is_collision b.rect (bullet_adv_rect s) = false) := by
  have hbk : (bullet_step s).bunkers =
      (resolve_bunkers (bullet_adv_rect s) s.bunkers).1 := by
    simp [bullet_step, hf]
  rw [hbk]
  exact resolve_bunkers_eq_iff _ _

/-- Witness for the amended C4 at the concrete state CEX4. -/
theorem C4_witness :
    (bullet_step CEX4).bunkers = CEX4.bunkers ↔
      ∀ b ∈ CEX4.bunkers,
        b.health ≤ 0 ∨ is_collision b.rect (bullet_adv_rect CEX4) = false :=
  C4_bunker_scan_still_runs CEX4 10 rfl (by decide)

/-- A concrete state at the score cap whose flying bullet overlaps its
only enemy, a top-row squid worth 30. -/
def CEX5 : GameState :=
  { playerX := 370, playerY := 520, playerXChange := 0, lives := 3,
    score := 999999, hiScore := 0, bulletX := 100, bulletY := 130,
    bulletState := .fire, bulletRect := ⟨100, 140, 3, 12⟩,
    enemies := [{ kind := .squid, x := 90, y := 110, xChange := 1, score := 30,
                  rect := ⟨90, 110, 33, 24⟩ }],
    bunkers := [], gameOver := false }

/-- C5 counterexample: the destructive collision adds the tier score with
no clamp, so the bullet block returns with the score above MAX_SCORE. -/
theorem C5_counterexample :
    (bullet_step CEX5).enemies = [] ∧
    (bullet_step CEX5).score = MAX_SCORE + ENEMY_SCORE_SQUID ∧
    MAX_SCORE < (bullet_step CEX5).score := by
  decide

/-- C5 amended: the destructive collision adds the tier score to the
running score unclamped; the clamp to the declared score bounds is applied
by the per-tick validation pass, not before the collision code returns. -/
theorem C5_score_added_then_clamped :
    (∀ (s : GameState) (v : Int), s.bulletState = .fire →
        (resolve_enemies (bullet_adv_rect s) s.enemies).2 = some v →
        (bullet_step s).score = s.score + v) ∧
    (∀ s : GameState,
        MIN_SCORE ≤ (validate_game_state s).score ∧
        (validate_game_state s).score ≤ MAX_SCORE) := by
  constructor
  · intro s v hf hr
    simp [bullet_step, hf, hr]
  · intro s
    constructor
    · show MIN_SCORE ≤ max MIN_SCORE (min s.score MAX_SCORE)
      exact le_max_left _ _
    · show max MIN_SCORE (min s.score MAX_SCORE) ≤ MAX_SCORE
      exact max_le (by decide) (min_le_right _ _)

/-- Every blit position draw_bunkers emits comes from a bunker with
positive health. -/
theorem draw_bunkers_sound (bs : List Bunker) (p : Int × Int)
    (hp : p ∈ draw_bunkers bs) :
    ∃ b ∈ bs, 0 < b.health ∧ p = (b.rect.x, b.rect.y) := by
  simp only [draw_bunkers, List.mem_filterMap] at hp
  obtain ⟨b, hb, hcond⟩ := hp
  by_cases hh : b.health > 0
  · rw [if_pos hh] at hcond
    exact ⟨b, hb, hh, (Option.some.injEq _ _ ▸ hcond).symm⟩
  · rw [if_neg hh] at hcond
    exact absurd hcond (by simp)

theorem bullet_step_bunkers_forall2 (t : GameState) :
    List.Forall₂ bunker_frame t.bunkers (bullet_step t).bunkers := by
  by_cases hf : t.bulletState = .fire
  · have hbk : (bullet_step t).bunkers =
        (resolve_bunkers (bullet_adv_rect t) t.bunkers).1 := by
      simp [bullet_step, hf]
    rw [hbk]
    exact resolve_bunkers_forall2 _ _
  · have hbk : (bullet_step t).bunkers = t.bunkers := by
      simp [bullet_step, hf]
    rw [hbk]
    exact bunker_frame_refl _

theorem sim_step_bunkers_forall2 (t : GameState) :
    List.Forall₂ bunker_frame t.bunkers (sim_step t).bunkers := by
  have h := bullet_step_bunkers_forall2
    { move_player t with
        enemies := (move_enemies (move_player t).enemies).1,
        gameOver := (move_player t).gameOver || (move_enemies (move_player t).enemies).2 }
  simp only [sim_step]
  rw [(respawn_step_preserves _).2.1]
  exact h

/-- C9: over one tick of a round (no reset intent), every bunker keeps
its rect and slot, its health never increases and never drops below 0, a
dead bunker is untouched by the collision scan, and only bunkers with
positive health are drawn. -/
theorem C9_bunker_invariants (evs : List GameEvent) (s : GameState)
    (hnoR : ∀ ev ∈ evs, ev ≠ GameEvent.keyR) :
    List.Forall₂ bunker_frame s.bunkers (tick evs s).bunkers ∧
    (∀ p ∈ draw_bunkers (tick evs s).bunkers,
      ∃ b ∈ (tick evs s).bunkers, 0 < b.health ∧ p = (b.rect.x, b.rect.y)) := by
  have hb2 : (handle_events evs (validate_game_state s)).bunkers = s.bunkers :=
    handle_events_bunkers_noR _ _ hnoR
  refine ⟨?_, fun p hp => draw_bunkers_sound _ p hp⟩
  by_cases hgo : (handle_events evs (validate_game_state s)).gameOver = true
  · have htick : tick evs s = handle_events evs (validate_game_state s) := by
      simp [tick, hgo]
    rw [htick, hb2]
    exact bunker_frame_refl _
  · have hgo2 : (handle_events evs (validate_game_state s)).gameOver = false := by
      revert hgo
      cases (handle_events evs (validate_game_state s)).gameOver <;> simp
    have htick : tick evs s = sim_step (handle_events evs (validate_game_state s)) := by
      simp [tick, hgo2]
    rw [htick, ← hb2]
    exact sim_step_bunkers_forall2 _

/-- Witness for C9 at the concrete state W6 with no events. -/
theorem C9_witness :
    List.Forall₂ bunker_frame W6.bunkers (tick [] W6).bunkers ∧
    (∀ p ∈ draw_bunkers (tick [] W6).bunkers,
      ∃ b ∈ (tick [] W6).bunkers, 0 < b.health ∧ p = (b.rect.x, b.rect.y)) :=
  C9_bunker_invariants [] W6 (by simp)

end SpaceInvaders
